import Mathlib

/-!
Shallow embedding of the Methodverse parameter core: the operation-policy
tables (primitive_operators.h, primitive_operators_add.h / part_005,
primitive_operators_mul.h), the unit rules, the typed value containers
(parameter_defs.h, parameter_defs1.h, part_006) and the tagged-union
Parameter (parameter.h, parameter.cpp).  Machine doubles are modelled as
rationals; compile-time rejections (failed requires clauses on unit_of,
disabled policy entries) are modelled as Option/Except error results.
-/

namespace Methodverse

/-! ## Unit algebra

mp-units style units are modelled as exponent vectors over the two base
dimensions the claims need (length, time).  Equality is exact exponent
equality; multiply adds exponents, divide subtracts them. -/

structure MUnit where
  length : Int
  time : Int
deriving DecidableEq

def MUnit.mul (u v : MUnit) : MUnit := ⟨u.length + v.length, u.time + v.time⟩

def MUnit.div (u v : MUnit) : MUnit := ⟨u.length - v.length, u.time - v.time⟩

def MUnit.metre : MUnit := ⟨1, 0⟩

def MUnit.second : MUnit := ⟨0, 1⟩

/-! ## Primitive Eigen values over the rationals -/

structure Vec3 where
  x : ℚ
  y : ℚ
  z : ℚ
deriving DecidableEq

structure Mat3 where
  m00 : ℚ
  m01 : ℚ
  m02 : ℚ
  m10 : ℚ
  m11 : ℚ
  m12 : ℚ
  m20 : ℚ
  m21 : ℚ
  m22 : ℚ
deriving DecidableEq

structure Quat where
  w : ℚ
  x : ℚ
  y : ℚ
  z : ℚ
deriving DecidableEq

/-! ## Old-generation policy table: OperationPolicy (primitive_operators.h)

eigen_plus_scalar applies (v.array() + s); the multiply_vec / multiply_mat
aliases of OperationPolicy of scalar_tag are binary_op with functor
eigen_plus_scalar (primitive_operators.h lines 237 and 239), so they add
the scalar to each coefficient. -/

def vecPlusScalar (v : Vec3) (s : ℚ) : Vec3 := ⟨v.x + s, v.y + s, v.z + s⟩

def matPlusScalar (m : Mat3) (s : ℚ) : Mat3 :=
  ⟨m.m00 + s, m.m01 + s, m.m02 + s,
   m.m10 + s, m.m11 + s, m.m12 + s,
   m.m20 + s, m.m21 + s, m.m22 + s⟩

/-- OperationPolicy of scalar_tag, alias multiply_vec: binary_op of
(T, Vector3d, Vector3d, eigen_plus_scalar), so op(s, v) is (v.array() + s). -/
def operationPolicyScalarMultiplyVec (s : ℚ) (v : Vec3) : Vec3 := vecPlusScalar v s

/-- OperationPolicy of scalar_tag, alias multiply_mat: binary_op of
(T, Matrix3d, Matrix3d, eigen_plus_scalar), so op(s, m) is (m.array() + s). -/
def operationPolicyScalarMultiplyMat (s : ℚ) (m : Mat3) : Mat3 := matPlusScalar m s

/-! ## New-generation policy table: op_policy (part_005) value implementations -/

/-- op_policy of (scalar_tag, eigen_vecmat_tag, mul_op), impl(s, vm) =
(s * vm.array()).eval(), specialised to Vector3d (part_005 lines 218 to 233). -/
def opPolicyScalarVecMul (s : ℚ) (v : Vec3) : Vec3 := ⟨s * v.x, s * v.y, s * v.z⟩

/-- op_policy of (scalar_tag, eigen_vecmat_tag, mul_op), impl(s, vm) =
(s * vm.array()).eval(), specialised to Matrix3d. -/
def opPolicyScalarMatMul (s : ℚ) (m : Mat3) : Mat3 :=
  ⟨s * m.m00, s * m.m01, s * m.m02,
   s * m.m10, s * m.m11, s * m.m12,
   s * m.m20, s * m.m21, s * m.m22⟩

/-- op_policy of (scalar_tag, scalar_tag, add_op), impl(s1, s2) = s1 + s2. -/
def opPolicyScalarAddImpl (s1 s2 : ℚ) : ℚ := s1 + s2

/-- op_policy of (scalar_tag, scalar_tag, sub_op), impl(s1, s2) = s1 - s2. -/
def opPolicyScalarSubImpl (s1 s2 : ℚ) : ℚ := s1 - s2

/-! ## Unit rules of the policy tables

A unit rule with a requires clause on its template parameters is modelled
as an Option valued function: none when the requires clause rejects the
pair of units (a compile-time error in the source), some u when the rule
produces result unit u. -/

/-- unit_of of every add_op and sub_op policy entry (part_005 and
primitive_operators_add.h): requires Ux == Uy and returns Ux. -/
def addUnitOf (u v : MUnit) : Option MUnit := if u = v then some u else none

/-- unit_of of every mul_op policy entry of part_005, including the
quaternion times quaternion entry at lines 313 to 324: no requires clause,
returns Ux * Uy. -/
def mulUnitOfPart005 (u v : MUnit) : Option MUnit := some (MUnit.mul u v)

/-- unit_of of the op_policy of (eigen_quat_tag, eigen_quat_tag, mul_op)
entry of include/primitive_operators_add.h lines 172 to 184: requires
Ux == Uy and returns Ux. -/
def quatMulUnitOfAddHeader (u v : MUnit) : Option MUnit := if u = v then some u else none

/-- unit_of of the op_policy of (scalar_tag, scalar_tag, mul_op) entry of
include/primitive_operators_mul.h lines 18 to 32: requires Ux == Uy and
returns Ux. -/
def scalarMulUnitOfMulHeader (u v : MUnit) : Option MUnit := if u = v then some u else none

/-- unit_of of the div_op policy entries of part_005: returns Ux / Uy. -/
def divUnitOf (u v : MUnit) : Option MUnit := some (MUnit.div u v)

/-! ## Unit-typed value container (part_006 ParameterBase)

A ParameterBase of (T, Unit) holds a std::vector of T and a compile-time
unit.  Val() returns the first element, or a value-initialised T when the
vector is empty (0 for arithmetic T).  operator+ / operator- consult
op_policy of (category, category, add_op / sub_op): the unit_of requires
clause rejects unequal units at compile time; on success the result is a
one-element container holding impl(Val(), rhs.Val()) with the policy
unit. -/

inductive OpError where
  | unitMismatch
  | emptyValue
  | sizeMismatch
  | unexpected
deriving DecidableEq

structure PBScalarParam where
  unit : MUnit
  vals : List ℚ
deriving DecidableEq

def PBScalarParam.val (p : PBScalarParam) : ℚ := p.vals.headD 0

/-- ParameterBase operator+ for two scalar-category containers (part_006
lines 130 to 140): resolve the unit rule first, then build a one-element
result from the first elements of each side. -/
def pbAdd (p q : PBScalarParam) : Except OpError PBScalarParam :=
  match addUnitOf p.unit q.unit with
  | none => .error .unitMismatch
  | some u => .ok ⟨u, [opPolicyScalarAddImpl p.val q.val]⟩

/-- ParameterBase operator- for two scalar-category containers (part_006
lines 142 to 152). -/
def pbSub (p q : PBScalarParam) : Except OpError PBScalarParam :=
  match addUnitOf p.unit q.unit with
  | none => .error .unitMismatch
  | some u => .ok ⟨u, [opPolicyScalarSubImpl p.val q.val]⟩

/-! ## Element-wise binary operation (parameter_defs.h)

Both elementWiseBinaryOp overloads (parameter_defs.h lines 269 to 313 and
829 to 880) share this branch structure: empty check first, then the
size-mismatch check, then the three broadcasting branches. -/

def elementWiseBinaryOp {α β : Type} (lhs rhs : List α) (op : α → α → β) :
    Except OpError (List β) :=
  match lhs, rhs with
  | [], _ => .error .emptyValue
  | _, [] => .error .emptyValue
  | a :: as, b :: bs =>
    if 1 < (a :: as).length ∧ 1 < (b :: bs).length ∧ (a :: as).length ≠ (b :: bs).length then
      .error .sizeMismatch
    else if (a :: as).length = 1 ∧ 1 < (b :: bs).length then
      .ok ((b :: bs).map (fun y => op a y))
    else if 1 < (a :: as).length ∧ (b :: bs).length = 1 then
      .ok ((a :: as).map (fun x => op x b))
    else if (a :: as).length = (b :: bs).length then
      .ok (List.zipWith op (a :: as) (b :: bs))
    else
      .error .unexpected

/-- Free operator* for two Parameter containers of different derived types
with the same arithmetic value type and equal units (parameter_defs.h
lines 328 to 332): it calls elementWiseBinaryOp with functor std::plus. -/
def freeMul (lhs rhs : List ℚ) : Except OpError (List ℚ) :=
  elementWiseBinaryOp lhs rhs (fun a b => a + b)

/-- Free operator/ for two Parameter containers of different derived types
with the same arithmetic value type and equal units (parameter_defs.h
lines 334 to 338): it calls elementWiseBinaryOp with functor std::minus. -/
def freeDiv (lhs rhs : List ℚ) : Except OpError (List ℚ) :=
  elementWiseBinaryOp lhs rhs (fun a b => a - b)

/-! ## Typed container equality (C6) -/

/-- Model of the CRTP Parameter of parameter_defs.h lines 630 to 808: a
value vector plus the runtime unit string set with SetUnit. -/
structure TypedParam where
  vals : List ℚ
  unitStr : String
deriving DecidableEq

/-- Parameter operator== of parameter_defs.h lines 684 to 686: it returns
value_ == other.value_ and reads nothing else. -/
def typedEq (p q : TypedParam) : Bool := p.vals == q.vals

/-- ParameterBase operator== of part_006 lines 82 to 90: when the two
compile-time units are equal it compares the value vectors exactly,
otherwise it returns false. -/
def pbEq (u1 : MUnit) (xs : List ℚ) (u2 : MUnit) (ys : List ℚ) : Bool :=
  if u1 = u2 then xs == ys else false

/-! ## Tagged-union Parameter (parameter.h / parameter.cpp)

ParameterValue is a std::variant over fifteen alternatives; EnumHolder
stores the enum integer value plus the enum type identity (modelled as a
string tag). -/

structure EnumHolder where
  value : Int
  typeId : String
deriving DecidableEq

inductive PV where
  | pint (i : Int)
  | pdouble (q : ℚ)
  | pbool (b : Bool)
  | pstring (s : String)
  | pvecInt (xs : List Int)
  | pvecDouble (xs : List ℚ)
  | pvecBool (xs : List Bool)
  | pvecString (xs : List String)
  | pvec3 (v : Vec3)
  | pmat3 (m : Mat3)
  | pquat (q : Quat)
  | pvecVec3 (xs : List Vec3)
  | pvecMat3 (xs : List Mat3)
  | pvecQuat (xs : List Quat)
  | penum (h : EnumHolder)
deriving DecidableEq

/-- Position of the active alternative in the ParameterValue variant
(parameter.h lines 22 to 38), in declaration order. -/
def PV.kindIdx : PV → Nat
  | .pint _ => 0
  | .pdouble _ => 1
  | .pbool _ => 2
  | .pstring _ => 3
  | .pvecInt _ => 4
  | .pvecDouble _ => 5
  | .pvecBool _ => 6
  | .pvecString _ => 7
  | .pvec3 _ => 8
  | .pmat3 _ => 9
  | .pquat _ => 10
  | .pvecVec3 _ => 11
  | .pvecMat3 _ => 12
  | .pvecQuat _ => 13
  | .penum _ => 14

def PV.isEnumHolder : PV → Bool
  | .penum _ => true
  | _ => false

/-! Eigen isApprox with the default precision for double,
dummy_precision() = 1e-12: a.isApprox(b, p) holds when
(a - b).squaredNorm() is at most p^2 * min(a.squaredNorm(),
b.squaredNorm()).  Quaterniond::isApprox compares the four-coefficient
vectors the same way.  precSq below is p^2 = 1e-24. -/

def precSq : ℚ := 1 / 10 ^ 24

def Vec3.sub (a b : Vec3) : Vec3 := ⟨a.x - b.x, a.y - b.y, a.z - b.z⟩

def Vec3.sqNorm (a : Vec3) : ℚ := a.x * a.x + a.y * a.y + a.z * a.z

def isApproxV3 (a b : Vec3) : Bool :=
  decide ((a.sub b).sqNorm ≤ precSq * min a.sqNorm b.sqNorm)

def Mat3.sub (a b : Mat3) : Mat3 :=
  ⟨a.m00 - b.m00, a.m01 - b.m01, a.m02 - b.m02,
   a.m10 - b.m10, a.m11 - b.m11, a.m12 - b.m12,
   a.m20 - b.m20, a.m21 - b.m21, a.m22 - b.m22⟩

def Mat3.sqNorm (a : Mat3) : ℚ :=
  a.m00 * a.m00 + a.m01 * a.m01 + a.m02 * a.m02 +
  a.m10 * a.m10 + a.m11 * a.m11 + a.m12 * a.m12 +
  a.m20 * a.m20 + a.m21 * a.m21 + a.m22 * a.m22

def isApproxM3 (a b : Mat3) : Bool :=
  decide ((a.sub b).sqNorm ≤ precSq * min a.sqNorm b.sqNorm)

def Quat.sub (a b : Quat) : Quat := ⟨a.w - b.w, a.x - b.x, a.y - b.y, a.z - b.z⟩

def Quat.sqNorm (a : Quat) : ℚ := a.w * a.w + a.x * a.x + a.y * a.y + a.z * a.z

def isApproxQ (a b : Quat) : Bool :=
  decide ((a.sub b).sqNorm ≤ precSq * min a.sqNorm b.sqNorm)

/-- Comparison of two std::vector values element by element with f, after a
size check: the loop of parameter.cpp lines 62 to 66. -/
def eqListBy {α : Type} (f : α → α → Bool) : List α → List α → Bool
  | [], [] => true
  | a :: as, b :: bs => f a b && eqListBy f as bs
  | _, _ => false

/-- Parameter operator== of parameter.cpp lines 43 to 76: the variant
indices are compared first (different alternatives can never be equal),
then std::visit compares the active values, with isApprox for the three
Eigen alternatives and their std::vector forms and with operator== for
everything else. -/
def paramEq (a b : PV) : Bool :=
  if a.kindIdx ≠ b.kindIdx then false
  else
    match a, b with
    | .pvec3 v, .pvec3 w => isApproxV3 v w
    | .pmat3 m, .pmat3 n => isApproxM3 m n
    | .pquat p, .pquat q => isApproxQ p q
    | .pvecVec3 xs, .pvecVec3 ys => eqListBy isApproxV3 xs ys
    | .pvecMat3 xs, .pvecMat3 ys => eqListBy isApproxM3 xs ys
    | .pvecQuat xs, .pvecQuat ys => eqListBy isApproxQ xs ys
    | .pint i, .pint j => i == j
    | .pdouble x, .pdouble y => x == y
    | .pbool x, .pbool y => x == y
    | .pstring x, .pstring y => x == y
    | .pvecInt x, .pvecInt y => x == y
    | .pvecDouble x, .pvecDouble y => x == y
    | .pvecBool x, .pvecBool y => x == y
    | .pvecString x, .pvecString y => x == y
    | .penum x, .penum y => x == y
    | _, _ => false

/-! ## Parameter mutation and observers (parameter.h / parameter.cpp)

A Parameter carries its value, the list of registered observers (non-null
back-pointers, modelled as identifiers), and we record every onNotified
invocation in a log: notifyObservers (parameter.cpp lines 92 to 98) calls
onNotified once per registered observer. -/

structure ParamState where
  value : PV
  observers : List Nat
  log : List Nat
deriving DecidableEq

def notifyObservers (s : ParamState) : ParamState :=
  { s with log := s.log ++ s.observers }

/-- Parameter setValue (parameter.cpp lines 115 to 118): assign the value,
then notifyObservers. -/
def setValue (v : PV) (s : ParamState) : ParamState :=
  notifyObservers { s with value := v }

/-- Parameter operator= from a primitive value (parameter.h lines 209 to
221): assign the value and the variant index, then notifyObservers. -/
def assignPrimitive (v : PV) (s : ParamState) : ParamState :=
  notifyObservers { s with value := v }

/-- Parameter setEnum (parameter.h lines 185 to 190): store the enum
integer and its type identity in an EnumHolder.  The body assigns value_
and returns; it does not call notifyObservers. -/
def setEnum (x : Int) (ty : String) (s : ParamState) : ParamState :=
  { s with value := .penum ⟨x, ty⟩ }

inductive GetEnumError where
  | variantAccess
  | enumTypeMismatch
deriving DecidableEq

/-- Parameter getEnum (parameter.h lines 192 to 207): std::get of
EnumHolder throws bad_variant_access when the active alternative is not an
EnumHolder; otherwise a stored type identity different from the requested
enum type throws the enum-type-mismatch runtime error; otherwise the
stored integer is cast back to the enum.  getEnum is a const member: it
never changes the stored value. -/
def getEnum (ty : String) (s : ParamState) : Except GetEnumError Int :=
  match s.value with
  | .penum h => if h.typeId ≠ ty then .error .enumTypeMismatch else .ok h.value
  | _ => .error .variantAccess

/-! ## Theorems -/

/-- Claim C1 (failing-input evaluation).  The claim states that the policy
entry for (Scalar, VectorOrMatrix, Multiply) computes the elementwise
product of the vector or matrix with the scalar.  The multiply_vec and
multiply_mat aliases of OperationPolicy of scalar_tag instead add the
scalar to every coefficient: at s = 2 and v = (1, 2, 3) they return
(3, 4, 5) rather than (2, 4, 6), and likewise for the matrix entry.  The
newer op_policy of (scalar_tag, eigen_vecmat_tag, mul_op) table entry does
compute the elementwise product. -/
theorem c1_scalar_multiply_policy_eval :
    operationPolicyScalarMultiplyVec 2 ⟨1, 2, 3⟩ = ⟨3, 4, 5⟩ ∧
    operationPolicyScalarMultiplyVec 2 ⟨1, 2, 3⟩ ≠ ⟨2, 4, 6⟩ ∧
    operationPolicyScalarMultiplyMat 2 ⟨1, 2, 3, 4, 5, 6, 7, 8, 9⟩ =
      ⟨3, 4, 5, 6, 7, 8, 9, 10, 11⟩ ∧
    operationPolicyScalarMultiplyMat 2 ⟨1, 2, 3, 4, 5, 6, 7, 8, 9⟩ ≠
      ⟨2, 4, 6, 8, 10, 12, 14, 16, 18⟩ ∧
    opPolicyScalarVecMul 2 ⟨1, 2, 3⟩ = ⟨2, 4, 6⟩ ∧
    opPolicyScalarMatMul 2 ⟨1, 2, 3, 4, 5, 6, 7, 8, 9⟩ =
      ⟨2, 4, 6, 8, 10, 12, 14, 16, 18⟩ := by
  refine ⟨?_, ?_, ?_, ?_, ?_, ?_⟩ <;>
    norm_num [operationPolicyScalarMultiplyVec, operationPolicyScalarMultiplyMat,
      opPolicyScalarVecMul, opPolicyScalarMatMul, vecPlusScalar, matPlusScalar,
      Vec3.mk.injEq, Mat3.mk.injEq]

/-- Claim C2 (failing-input evaluation).  The claim states that operator*
on two typed value containers with equal units returns the elementwise
products and operator/ the elementwise quotients.  The free operator* of
parameter_defs.h lines 328 to 332 computes with std::plus and the free
operator/ of lines 334 to 338 with std::minus: on one-element containers
holding 2 and 3 they return 5 and -1 instead of 6 and 2/3. -/
theorem c2_free_mul_div_eval :
    freeMul [(2 : ℚ)] [3] = .ok [5] ∧
    freeDiv [(2 : ℚ)] [3] = .ok [-1] ∧
    (5 : ℚ) ≠ 2 * 3 ∧
    (-1 : ℚ) ≠ 2 / 3 := by
  refine ⟨?_, ?_, by norm_num, by norm_num⟩ <;>
    norm_num [freeMul, freeDiv, elementWiseBinaryOp]

/-- Claim C3 (failing-input evaluation).  The claim states that every
enabled Multiply policy entry, including Quaternion times Quaternion,
produces the product of the operand units with no equal-units
precondition.  The quaternion Multiply entry of
include/primitive_operators_add.h rejects unequal units (metre times
second resolves to nothing) and returns the left unit unchanged on equal
units (metre times metre resolves to metre, not metre squared); the
scalar Multiply entry of include/primitive_operators_mul.h does the same.
The part_005 table entry produces the unit product as the claim states. -/
theorem c3_quat_mul_unit_rule_eval :
    quatMulUnitOfAddHeader MUnit.metre MUnit.second = none ∧
    quatMulUnitOfAddHeader MUnit.metre MUnit.metre = some MUnit.metre ∧
    MUnit.mul MUnit.metre MUnit.metre ≠ MUnit.metre ∧
    scalarMulUnitOfMulHeader MUnit.metre MUnit.second = none ∧
    mulUnitOfPart005 MUnit.metre MUnit.second =
      some (MUnit.mul MUnit.metre MUnit.second) := by
  refine ⟨by decide, by decide, by decide, by decide, by decide⟩

/-- Claim C4.  For two scalar-category unit-typed containers, Add and
Subtract succeed when the units are equal and the result carries that same
unit, holding the policy sum respectively difference of the first
elements; when the units differ, both operations are rejected by the unit
rule with a UnitMismatch error whatever the stored values are, so no
element computation is reached. -/
theorem c4_add_sub_unit_rule (p q : PBScalarParam) :
    (p.unit = q.unit →
      pbAdd p q = .ok ⟨p.unit, [p.val + q.val]⟩ ∧
      pbSub p q = .ok ⟨p.unit, [p.val - q.val]⟩) ∧
    (p.unit ≠ q.unit →
      pbAdd p q = .error .unitMismatch ∧
      pbSub p q = .error .unitMismatch) := by
  constructor
  · intro h
    simp [pbAdd, pbSub, addUnitOf, h, opPolicyScalarAddImpl, opPolicyScalarSubImpl]
  · intro h
    simp [pbAdd, pbSub, addUnitOf, h]

/-- Witness for c4_add_sub_unit_rule: containers with units metre and
second are rejected with UnitMismatch, and equal metre units succeed. -/
theorem c4_add_sub_unit_rule_witness :
    pbAdd ⟨MUnit.metre, [1]⟩ ⟨MUnit.second, [2]⟩ = .error .unitMismatch ∧
    pbAdd ⟨MUnit.metre, [1]⟩ ⟨MUnit.metre, [2]⟩ = .ok ⟨MUnit.metre, [3]⟩ :=
  ⟨((c4_add_sub_unit_rule ⟨MUnit.metre, [1]⟩ ⟨MUnit.second, [2]⟩).2 (by decide)).1,
   by
    have h := ((c4_add_sub_unit_rule ⟨MUnit.metre, [1]⟩ ⟨MUnit.metre, [2]⟩).1 rfl).1
    rw [h]
    norm_num [PBScalarParam.val]⟩

/-- Claim C5.  Tagged-union Parameter equality compares the active kind
first: parameters holding different kinds are unequal whatever the stored
values.  When both hold the same Eigen-structured kind (Vector3, Matrix3x3,
Quaternion, or a vector of one of these) the comparison is Eigen isApprox
within floating tolerance (pointwise after a size check for the vector
forms); every other kind is compared by exact value equality. -/
theorem c5_tagged_equality :
    (∀ p q : PV, p.kindIdx ≠ q.kindIdx → paramEq p q = false) ∧
    (∀ v w, paramEq (.pvec3 v) (.pvec3 w) = isApproxV3 v w) ∧
    (∀ m n, paramEq (.pmat3 m) (.pmat3 n) = isApproxM3 m n) ∧
    (∀ a b, paramEq (.pquat a) (.pquat b) = isApproxQ a b) ∧
    (∀ xs ys, paramEq (.pvecVec3 xs) (.pvecVec3 ys) = eqListBy isApproxV3 xs ys) ∧
    (∀ xs ys, paramEq (.pvecMat3 xs) (.pvecMat3 ys) = eqListBy isApproxM3 xs ys) ∧
    (∀ xs ys, paramEq (.pvecQuat xs) (.pvecQuat ys) = eqListBy isApproxQ xs ys) ∧
    (∀ i j : Int, paramEq (.pint i) (.pint j) = (i == j)) ∧
    (∀ x y : ℚ, paramEq (.pdouble x) (.pdouble y) = (x == y)) ∧
    (∀ x y : Bool, paramEq (.pbool x) (.pbool y) = (x == y)) ∧
    (∀ x y : String, paramEq (.pstring x) (.pstring y) = (x == y)) ∧
    (∀ x y : List ℚ, paramEq (.pvecDouble x) (.pvecDouble y) = (x == y)) ∧
    (∀ x y : EnumHolder, paramEq (.penum x) (.penum y) = (x == y)) := by
  refine ⟨?_, ?_, ?_, ?_, ?_, ?_, ?_, ?_, ?_, ?_, ?_, ?_, ?_⟩
  · intro p q h
    unfold paramEq
    rw [if_pos h]
  all_goals intro a b; simp [paramEq, PV.kindIdx]

/-- Witness for c5_tagged_equality: an int parameter and a bool parameter
hold different kinds and compare unequal even though 1 and true coincide
as machine bit patterns. -/
theorem c5_tagged_equality_witness :
    PV.kindIdx (.pint 1) ≠ PV.kindIdx (.pbool true) ∧
    paramEq (.pint 1) (.pbool true) = false :=
  ⟨by decide, c5_tagged_equality.1 _ _ (by decide)⟩

/-- Claim C6 counterexample.  The claim states that two typed value
containers with equal element sequences but different units compare
unequal.  The Parameter operator== of parameter_defs.h compares only the
value vector, so containers holding [1] with unit strings metre and second
compare equal. -/
theorem c6_typed_equality_counterexample :
    ("metre" : String) ≠ "second" ∧
    typedEq ⟨[1], "metre"⟩ ⟨[1], "second"⟩ = true := by
  refine ⟨by decide, ?_⟩
  simp [typedEq]

/-- Claim C6 as amended.  The CRTP typed container equality compares
exactly the element sequences and ignores the unit string entirely, so
equal elements with different units compare equal; the compile-time
unit-typed ParameterBase variant returns false when the units differ and
compares the element sequences exactly when the units coincide.  No
operand shape is compared approximately. -/
theorem c6_typed_equality_amended :
    (∀ p q : TypedParam, typedEq p q = (p.vals == q.vals)) ∧
    (∀ (xs : List ℚ) (u1 u2 : String), typedEq ⟨xs, u1⟩ ⟨xs, u2⟩ = true) ∧
    (∀ (u1 u2 : MUnit) (xs ys : List ℚ), u1 ≠ u2 → pbEq u1 xs u2 ys = false) ∧
    (∀ (u : MUnit) (xs ys : List ℚ), pbEq u xs u ys = (xs == ys)) := by
  refine ⟨fun p q => rfl, ?_, ?_, ?_⟩
  · intro xs u1 u2
    simp [typedEq]
  · intro u1 u2 xs ys h
    simp [pbEq, h]
  · intro u xs ys
    simp [pbEq]

/-- Witness for c6_typed_equality_amended: metre-unit and second-unit
ParameterBase containers compare unequal. -/
theorem c6_typed_equality_amended_witness :
    pbEq MUnit.metre [1] MUnit.second [1] = false :=
  c6_typed_equality_amended.2.2.1 MUnit.metre MUnit.second [1] [1] (by decide)

/-- Claim C7.  After setEnum stores enum value x with type identity A,
getEnum at A returns x; getEnum at any different type identity B fails
with the enum-type-mismatch error and returns no value; getEnum is a const
read, so the stored value is still the EnumHolder for (x, A) and getEnum
at A still returns x afterwards. -/
theorem c7_enum_roundtrip (s : ParamState) (x : Int) (A B : String) (h : B ≠ A) :
    getEnum A (setEnum x A s) = .ok x ∧
    getEnum B (setEnum x A s) = .error .enumTypeMismatch ∧
    (setEnum x A s).value = .penum ⟨x, A⟩ ∧
    getEnum A (setEnum x A s) = .ok x := by
  have h2 : A ≠ B := fun e => h e.symm
  refine ⟨?_, ?_, rfl, ?_⟩ <;> simp [getEnum, setEnum, h2]

/-- Witness for c7_enum_roundtrip at enum value 1 stored under type EnumA
and read back under EnumA and EnumB. -/
theorem c7_enum_roundtrip_witness :
    getEnum "EnumA" (setEnum 1 "EnumA" ⟨.pint 0, [], []⟩) = .ok 1 ∧
    getEnum "EnumB" (setEnum 1 "EnumA" ⟨.pint 0, [], []⟩) =
      .error .enumTypeMismatch :=
  ⟨(c7_enum_roundtrip ⟨.pint 0, [], []⟩ 1 "EnumA" "EnumB" (by decide)).1,
   (c7_enum_roundtrip ⟨.pint 0, [], []⟩ 1 "EnumA" "EnumB" (by decide)).2.1⟩

/-- Claim C8 counterexample.  The claim states that setEnum, like the
other set operations, triggers notifyObservers so each registered observer
is notified exactly once per mutation.  On a parameter with one registered
observer, setEnum leaves the notification log empty: the observer is
notified zero times, not once. -/
theorem c8_notify_counterexample :
    (setEnum 1 "EnumA" ⟨.pint 0, [7], []⟩).observers = [7] ∧
    List.count 7 (setEnum 1 "EnumA" ⟨.pint 0, [7], []⟩).log = 0 ∧
    (0 : Nat) ≠ 1 := by
  refine ⟨rfl, rfl, by decide⟩

/-- Claim C8 as amended.  setValue and assignment from a primitive value
notify: each appends the observer list to the notification log exactly
once, so every registered observer receives onNotified once per mutation;
setEnum replaces the stored value with the EnumHolder but performs no
notification, leaving the log unchanged. -/
theorem c8_notify_amended (s : ParamState) (v : PV) (x : Int) (ty : String) :
    (setValue v s).log = s.log ++ s.observers ∧
    (setValue v s).value = v ∧
    (assignPrimitive v s).log = s.log ++ s.observers ∧
    (assignPrimitive v s).value = v ∧
    (∀ o : Nat, List.count o (setValue v s).log =
      List.count o s.log + List.count o s.observers) ∧
    (setEnum x ty s).log = s.log ∧
    (setEnum x ty s).value = .penum ⟨x, ty⟩ := by
  refine ⟨rfl, rfl, rfl, rfl, ?_, rfl, rfl⟩
  intro o
  simp [setValue, notifyObservers, List.count_append]

/-- Claim C9 counterexample.  The claim states that every binary operation
between two typed value containers fails with the empty-value error when
either operand has zero elements, and never returns a result.  The
ParameterBase operator+ of part_006 performs no empty check: Val() of an
empty container returns the value-initialised element (0), so adding an
empty metre container to a metre container holding [5] returns the
one-element result [5] instead of failing. -/
theorem c9_empty_check_counterexample :
    pbAdd ⟨MUnit.metre, []⟩ ⟨MUnit.metre, [5]⟩ = .ok ⟨MUnit.metre, [5]⟩ ∧
    (Except.ok (⟨MUnit.metre, [5]⟩ : PBScalarParam) : Except OpError PBScalarParam) ≠
      .error .emptyValue := by
  constructor
  · norm_num [pbAdd, addUnitOf, PBScalarParam.val, opPolicyScalarAddImpl]
  · simp

/-- Claim C9 as amended.  The binary operations built on
elementWiseBinaryOp (the CRTP Parameter operators of parameter_defs.h)
fail with the empty-value error whenever either operand has zero elements,
before any element computation and for every operator functor, and return
no result.  The unit-typed ParameterBase operators of part_006 perform no
empty check: with equal units they return a one-element result computed
from the first elements, an empty operand contributing the
value-initialised element 0. -/
theorem c9_empty_check_amended (lhs rhs : List ℚ) (op : ℚ → ℚ → ℚ)
    (h : lhs = [] ∨ rhs = []) :
    elementWiseBinaryOp lhs rhs op = .error .emptyValue ∧
    (∀ (u : MUnit) (ys : List ℚ),
      pbAdd ⟨u, []⟩ ⟨u, ys⟩ = .ok ⟨u, [0 + List.headD ys 0]⟩) ∧
    (∀ (u : MUnit) (xs : List ℚ),
      pbSub ⟨u, xs⟩ ⟨u, []⟩ = .ok ⟨u, [List.headD xs 0 - 0]⟩) := by
  refine ⟨?_, ?_, ?_⟩
  · rcases h with h | h
    · subst h
      cases rhs <;> rfl
    · subst h
      cases lhs <;> rfl
  · intro u ys
    simp [pbAdd, addUnitOf, PBScalarParam.val, opPolicyScalarAddImpl]
  · intro u xs
    simp [pbSub, addUnitOf, PBScalarParam.val, opPolicyScalarSubImpl]

/-- Witness for c9_empty_check_amended: an empty left operand against [1]
on the elementWiseBinaryOp path, and an empty metre container added to a
metre container holding [5] on the ParameterBase path. -/
theorem c9_empty_check_amended_witness :
    elementWiseBinaryOp ([] : List ℚ) [1] (fun a b => a + b) =
      .error .emptyValue ∧
    pbAdd ⟨MUnit.metre, []⟩ ⟨MUnit.metre, [5]⟩ =
      .ok ⟨MUnit.metre, [0 + 5]⟩ :=
  ⟨(c9_empty_check_amended [] [1] (fun a b => a + b) (Or.inl rfl)).1,
   (c9_empty_check_amended [] [1] (fun a b => a + b) (Or.inl rfl)).2.1
     MUnit.metre [5]⟩

/-- Claim C10.  When the active value of a tagged-union Parameter is not
an EnumHolder, getEnum fails with the variant-access error for every
requested enum type, never returning a value; this error is distinct from
the enum-type-mismatch error, whose check is only reached when the active
value is an EnumHolder. -/
theorem c10_getEnum_variant_access (ty : String) (s : ParamState)
    (h : s.value.isEnumHolder = false) :
    getEnum ty s = .error .variantAccess ∧
    GetEnumError.variantAccess ≠ GetEnumError.enumTypeMismatch := by
  refine ⟨?_, by decide⟩
  cases hv : s.value
  case penum e => simp [PV.isEnumHolder, hv] at h
  all_goals simp [getEnum, hv]

/-- Witness for c10_getEnum_variant_access at a parameter holding int 5. -/
theorem c10_getEnum_variant_access_witness :
    getEnum "EnumA" ⟨.pint 5, [], []⟩ = .error .variantAccess :=
  (c10_getEnum_variant_access "EnumA" ⟨.pint 5, [], []⟩ (by decide)).1

end Methodverse
